import Mathlib

/-!
Shallow embedding of the connection/dispatch core of guilded.py
(`guilded/client.py`), written to check the natural-language specification
against the code.

Modelling conventions:
- Python dictionaries keyed by strings become association lists with a
  `dictGet`/`dictSet` pair whose `dictSet` replaces an existing binding in
  place (Python dict assignment semantics).
- Python truthiness is made explicit where the code relies on it
  (`token or self.http.token`, `cache_on_startup.get(...) or True`,
  `self.get_user(id) or await self.fetch_user(id)`).
- Raising is modelled with `Except PyExc`; the exception constructors carry
  the names of the Python exception classes the code raises.
- Side effects (dispatching, sleeping, building a websocket, REST calls)
  are reified as actions accumulated in lists, so that theorems can speak
  about which effects an operation performs and in which order.
-/

namespace Guilded

/-- Python exceptions raised (or swallowed) by the modelled code paths.
`typeError` is `Client.event`'s rejection of a non-coroutine handler
(the spec calls this category `ConfigurationError`); `clientException` is
`Client.connect`'s missing-token error (the spec calls this category
`AuthenticationError`); `nameError` is the unbound-name failure of the
`ws.close(code=1000)` line inside `Client.close`. -/
inductive PyExc
  | typeError
  | clientException
  | nameError
deriving DecidableEq, Repr

/-- `d.get(k)` on a Python dict modelled as an association list. -/
def dictGet {α : Type} : List (String × α) → String → Option α
  | [], _ => none
  | (k', v') :: rest, k => if k' = k then some v' else dictGet rest k

/-- `d[k] = v` on a Python dict: replaces the existing binding for `k`
in place, otherwise appends a fresh one. -/
def dictSet {α : Type} : List (String × α) → String → α → List (String × α)
  | [], k, v => [(k, v)]
  | (k', v') :: rest, k, v =>
    if k' = k then (k, v) :: rest else (k', v') :: dictSet rest k v

/-- A Python value as relevant to the `cache_on_startup` option: either
`None` (a key `dict.get` did not find) or a boolean. -/
inductive PyVal
  | vNone
  | vBool (b : Bool)
deriving DecidableEq, Repr

/-- Python truthiness on `PyVal`: `None` is falsy, booleans are themselves. -/
def PyVal.truthy : PyVal → Bool
  | .vNone => false
  | .vBool b => b

/-- Python `x or True` on a `PyVal`: the left operand if truthy, else `True`. -/
def pyOrTrue (v : PyVal) : PyVal :=
  if v.truthy then v else .vBool true

/-- Python truthiness of an optional token string: `None` and `''` are falsy. -/
def strTruthy : Option String → Bool
  | none => false
  | some s => !s.isEmpty

/-- Python `a or b` on optional token strings. -/
def pyOrStr (a b : Option String) : Option String :=
  if strTruthy a then a else b

/-- Python `a or b` where both operands are optional cache-lookup results
and any present object is truthy (`_get_global_team_channel(id) or
_get_dm_channel(id)` in `Client.get_channel`). -/
def pyOrOpt {α : Type} (a b : Option α) : Option α :=
  match a with
  | some x => some x
  | none => b

/-- A user-supplied event handler as `Client.event` sees it: its
`__name__`, whether `asyncio.iscoroutinefunction` accepts it, and an
identity so that theorems can tell two registered handlers apart. -/
structure Coro where
  name : String
  isCoroutineFunction : Bool
  id : Nat
deriving DecidableEq, Repr

/-- The client state touched by the modelled operations of
`guilded.Client`: the `_listeners` registry (event name ↦ handler id),
the entity caches held by its `HTTPClient` (`_users`,
`_team_channels`, `_dm_channels`, `_messages`, id ↦ entity id), the
configured token, and the `_closed` / `_ready` flags. -/
structure ClientState where
  listeners : List (String × Nat)
  users : List (String × String)
  teamChannels : List (String × String)
  dmChannels : List (String × String)
  messages : List (String × String)
  token : Option String
  closed : Bool
  ready : Bool
deriving DecidableEq, Repr

/-- A client fresh out of `Client.__init__`: empty registry and caches,
no token, not closed, not ready. -/
def initialClient : ClientState :=
  { listeners := [], users := [], teamChannels := [], dmChannels := []
    messages := [], token := none, closed := false, ready := false }

/-- `Client.__init__`'s computation of `self.cache_on_startup` from the
`cache_on_startup` option dict: each setting is
`cache_on_startup.get(key) or True`. -/
def cacheOnStartup (opts : List (String × PyVal)) : PyVal × PyVal :=
  (pyOrTrue ((dictGet opts "members").getD .vNone),
   pyOrTrue ((dictGet opts "channels").getD .vNone))

/-- `Client.event`: rejects a handler that is not a coroutine function
with `TypeError`, otherwise stores it in `self._listeners` under its
`__name__` and returns it. (The `setattr(self, coro.__name__, coro)`
line only mirrors the registry onto an instance attribute and is not
modelled.) -/
def eventRegister (st : ClientState) (coro : Coro) :
    Except PyExc (ClientState × Coro) :=
  if coro.isCoroutineFunction then
    .ok ({ st with listeners := dictSet st.listeners coro.name coro.id }, coro)
  else
    .error .typeError

/-- `Client.dispatch`: looks up `self._listeners.get(f'on_{event_name}')`;
if absent, returns without doing anything; otherwise schedules exactly
that handler. The returned list holds the ids of the handlers scheduled
by this call. `dispatch` contains no `raise`, so it is a total function. -/
def dispatch (st : ClientState) (eventName : String) :
    ClientState × List Nat :=
  match dictGet st.listeners ("on_" ++ eventName) with
  | none => (st, [])
  | some h => (st, [h])

/-- `Client.close`: returns immediately when `self._closed` is already
set; otherwise attempts the graceful close frame — the source line is
`await ws.close(code=1000)` where `ws` is an unbound name, so the attempt
raises and the bare `except Exception: pass` swallows it (as it would any
other failure, modelled by the unused `frameResult` argument) — then sets
`_closed` and clears `_ready`. -/
def close (frameResult : Except PyExc Unit) (st : ClientState) :
    Except PyExc ClientState :=
  if st.closed then
    .ok st
  else
    .ok { st with closed := true, ready := false }

/-- A network action named by the embedding: building (or rebuilding) the
gateway websocket, or a REST request. -/
inductive NetAction
  | wsBuild
  | restGetUser (id : String)
deriving DecidableEq, Repr

/-- The head of `Client.connect`, up to the first connection attempt of the
`while not self.closed` loop: `self.http.token = token or self.http.token`,
then `raise ClientException(...)` if the resulting token is falsy, and only
after that does the loop build a websocket. The returned list holds the
network actions performed, so that the token error demonstrably precedes
any connection attempt. -/
def connectStart (tokenArg : Option String) (st : ClientState) :
    Except PyExc (ClientState × List NetAction) :=
  let st' := { st with token := pyOrStr tokenArg st.token }
  if strTruthy st'.token then
    .ok (st', if st'.closed then [] else [NetAction.wsBuild])
  else
    .error .clientException

/-- Outcome the environment hands one `await ws.poll_event()` call inside
`listen_socks`: either the poll succeeds or it raises `WebSocketClosure`. -/
inductive PollResult
  | success
  | closure
deriving DecidableEq, Repr

/-- Outcome the environment hands one websocket rebuild
(`await asyncio.wait_for(build, timeout=60)`) inside `listen_socks`:
either a fresh websocket, or `asyncio.TimeoutError`. -/
inductive BuildResult
  | ok
  | timeout
deriving DecidableEq, Repr

/-- An observable action of one `listen_socks` iteration. -/
inductive SockAction
  | dispatchDisconnect
  | sleep (secs : Nat)
  | wsBuild
  | closeConn
deriving DecidableEq, Repr

/-- One iteration of the `while True and ws is not None` loop inside
`Client.connect.listen_socks`, given the current `next_backoff_time`
and the environment's outcomes for this iteration's poll and (if reached)
rebuild. Returns the actions performed and `some next_backoff_time` to
continue looping, or `none` when the loop `break`s. On a successful poll
the `else:` arm resets `next_backoff_time = 5`; on `WebSocketClosure`
with `reconnect=False` the client is closed and the loop breaks; with
reconnect on, `disconnect` is dispatched, the backoff sleep happens,
the rebuild is attempted, and only an `asyncio.TimeoutError` bumps
`next_backoff_time += 5`. -/
def listenIter (reconnect : Bool) (backoff : Nat)
    (poll : PollResult) (build : BuildResult) :
    List SockAction × Option Nat :=
  match poll with
  | .success => ([], some 5)
  | .closure =>
    if reconnect = false then
      ([.closeConn], none)
    else
      ([.dispatchDisconnect, .sleep backoff, .wsBuild],
        some (match build with
              | .ok => backoff
              | .timeout => backoff + 5))

/-- The `listen_socks` loop run against a finite script of environment
outcomes, starting from a given `next_backoff_time`; yields the
concatenated action trace (stopping early when an iteration breaks). -/
def listenRun (reconnect : Bool) : Nat → List (PollResult × BuildResult) →
    List SockAction
  | _, [] => []
  | b, (p, bd) :: rest =>
    match listenIter reconnect b p bd with
    | (acts, none) => acts
    | (acts, some b') => acts ++ listenRun reconnect b' rest

/-- `listen_socks` enters its loop with `next_backoff_time = 5`. -/
def listenSocks (reconnect : Bool)
    (script : List (PollResult × BuildResult)) : List SockAction :=
  listenRun reconnect 5 script

/-- The sleep durations occurring in a `listen_socks` action trace,
in order. -/
def sleepsOf (acts : List SockAction) : List Nat :=
  acts.filterMap fun a =>
    match a with
    | .sleep s => some s
    | _ => none

/-- Outcome of awaiting a user handler coroutine (or the `on_error` hook)
inside `Client._run_event`: normal return, `asyncio.CancelledError`, or
an ordinary `Exception`. -/
inductive AwaitOutcome
  | ok
  | raisesCancelled
  | raisesExc
deriving DecidableEq, Repr

/-- `Client._run_event`: awaits the handler; `asyncio.CancelledError` is
passed over; any other `Exception` routes to `self.on_error`, whose own
`CancelledError` is also passed over — an ordinary exception raised by an
overridden `on_error` itself is the only thing that can escape. Returns
the number of `on_error` invocations and the escaping exception, if any. -/
def runEvent (handler onError : AwaitOutcome) : Nat × Option Unit :=
  match handler with
  | .ok => (0, none)
  | .raisesCancelled => (0, none)
  | .raisesExc =>
    match onError with
    | .ok => (1, none)
    | .raisesCancelled => (1, none)
    | .raisesExc => (1, some ())

/-- The default `Client.on_error` prints the exception to stderr and
returns normally. -/
def defaultOnError : AwaitOutcome := .ok

/-- A sequence of events processed through the event-running path, each
handler invocation wrapped in `_run_event` with the default `on_error`;
were an exception to escape `_run_event`, the sequence would abort there.
Yields the per-event `on_error` invocation counts. -/
def runEventSeq : List AwaitOutcome → List Nat
  | [] => []
  | h :: rest =>
    match runEvent h defaultOnError with
    | (n, some _) => [n]
    | (n, none) => n :: runEventSeq rest

/-- A REST-call-tracking result: the value produced together with the
REST requests issued to produce it. -/
def WithRest (α : Type) : Type := α × List NetAction

/-- Modelled from the spec: `HTTPClient._get_user` (in `http.py`, which is
not part of the sources) "consult[s] the Entity Cache only (no implicit
network I/O)" — a pure lookup in the `_users` mapping. -/
def httpCacheGetUser (st : ClientState) (id : String) :
    WithRest (Option String) :=
  (dictGet st.users id, [])

/-- Modelled from the spec: `HTTPClient._get_global_team_channel` and
`HTTPClient._get_dm_channel` (in `http.py`, not part of the sources)
consult the Entity Cache only. -/
def httpCacheGetTeamChannel (st : ClientState) (id : String) :
    WithRest (Option String) :=
  (dictGet st.teamChannels id, [])

/-- Modelled from the spec: cache-only lookup of a DM channel. -/
def httpCacheGetDmChannel (st : ClientState) (id : String) :
    WithRest (Option String) :=
  (dictGet st.dmChannels id, [])

/-- Modelled from the spec: `HTTPClient.get_user` (in `http.py`, not part
of the sources) "always hit[s] the REST Client collaborator" — it issues
exactly one REST request for the user and returns its payload. -/
def httpRestGetUser (id : String) : WithRest String :=
  (id, [NetAction.restGetUser id])

/-- `Client.get_user`: `return self.http._get_user(id)` — cache only. -/
def get_user (st : ClientState) (id : String) : WithRest (Option String) :=
  httpCacheGetUser st id

/-- `Client.get_channel`: `self.http._get_global_team_channel(id) or
self.http._get_dm_channel(id)` — two cache lookups joined by Python
`or`, no network. -/
def get_channel (st : ClientState) (id : String) : WithRest (Option String) :=
  let (tc, r1) := httpCacheGetTeamChannel st id
  let (dm, r2) := httpCacheGetDmChannel st id
  (pyOrOpt tc dm, r1 ++ r2)

/-- `Client.fetch_user`: `user = await self.http.get_user(id)` then wraps
the payload in a `User` — always the one REST call, cache not consulted. -/
def fetch_user (st : ClientState) (id : String) : WithRest String :=
  httpRestGetUser id

/-- `Client.getch_user`: `self.get_user(id) or await self.fetch_user(id)`
— the REST fall-back runs only when the cache lookup is falsy (`None`;
a present `User` object is truthy). -/
def getch_user (st : ClientState) (id : String) : WithRest String :=
  match get_user st id with
  | (some u, r) => (u, r)
  | (none, r) =>
    let (u, r') := fetch_user st id
    (u, r ++ r')

theorem dictGet_dictSet_self {α : Type} (l : List (String × α)) (k : String)
    (v : α) : dictGet (dictSet l k v) k = some v := by
  induction l with
  | nil => simp [dictSet, dictGet]
  | cons hd tl ih =>
    obtain ⟨k', v'⟩ := hd
    by_cases h : k' = k
    · simp [dictSet, dictGet, h]
    · simp [dictSet, dictGet, h, ih]

theorem listenRun_timeout_sleeps : ∀ (n b : Nat),
    sleepsOf (listenRun true b
        (List.replicate n (PollResult.closure, BuildResult.timeout)))
      = (List.range n).map (fun k => b + 5 * k)
  | 0, b => by simp [listenRun, sleepsOf]
  | n + 1, b => by
    rw [List.replicate_succ, List.range_succ_eq_map]
    have step := listenRun_timeout_sleeps n (b + 5)
    simp only [listenRun, listenIter, sleepsOf, List.filterMap_append,
      List.filterMap_cons, List.filterMap_nil, if_neg (by decide : ¬(true = false))] at step ⊢
    rw [step]
    simp only [List.map_cons, List.map_map, List.singleton_append]
    refine List.cons_eq_cons.mpr ⟨by omega, ?_⟩
    apply List.map_congr_left
    intro k _
    simp only [Function.comp_apply]
    omega

theorem listenRun_count_disconnect :
    ∀ (script : List (PollResult × BuildResult)) (b : Nat),
    (listenRun true b script).count SockAction.dispatchDisconnect
      = script.countP (fun pb => pb.1 == PollResult.closure)
  | [], _ => rfl
  | (p, bd) :: rest, b => by
    have ih1 := listenRun_count_disconnect rest 5
    have ih2 := listenRun_count_disconnect rest (b + 5)
    have ih3 := listenRun_count_disconnect rest b
    cases p <;> cases bd <;>
      simp_all [listenRun, listenIter, List.countP_cons, List.count_append,
        List.count_cons]

/-- C1: with `reconnect=true`, after an abnormal closure the wait before the
next reconnect attempt starts at `next_backoff_time = 5` seconds, and each
consecutive reconnect attempt failing with `asyncio.TimeoutError` runs
`next_backoff_time += 5`, so a script of `n` consecutive
closure-then-timeout rounds sleeps exactly 5, 10, …, 5·n seconds — an
arithmetic progression with step 5 and no upper cap (the formula holds for
every `n`). -/
theorem backoff_starts_at_five_and_grows_uncapped (n : Nat) :
    sleepsOf (listenSocks true
        (List.replicate n (PollResult.closure, BuildResult.timeout)))
      = (List.range n).map (fun k => 5 + 5 * k) := by
  simpa [listenSocks] using listenRun_timeout_sleeps n 5

/-- C2: on an abnormal closure with `reconnect=true` the iteration performs
exactly `dispatch('disconnect')`, then the backoff sleep, then the rebuild
— one disconnect notification, before the wait and the reconnect attempt —
and over a whole run the number of disconnect notifications equals the
number of abnormal closures; with `reconnect=false` the iteration only
calls `self.close()` (which sets `_closed`, making the outer
`while not self.closed` loop exit), dispatches no disconnect, attempts no
rebuild, and `break`s out of the listen loop. -/
theorem disconnect_dispatched_once_before_reconnect (b : Nat)
    (build : BuildResult) (script : List (PollResult × BuildResult)) :
    (listenIter true b PollResult.closure build).1
        = [SockAction.dispatchDisconnect, SockAction.sleep b, SockAction.wsBuild]
    ∧ (listenSocks true script).count SockAction.dispatchDisconnect
        = script.countP (fun pb => pb.1 == PollResult.closure)
    ∧ listenIter false b PollResult.closure build
        = ([SockAction.closeConn], none) := by
  refine ⟨by cases build <;> rfl, ?_, by cases build <;> rfl⟩
  exact listenRun_count_disconnect script 5

/-- C3: `Client.connect` raises `ClientException` (the realization of the
spec's `AuthenticationError`) exactly when neither the `token` argument nor
the previously configured `self.http.token` is a usable (truthy) token; the
raise precedes the connection loop, so the error case performs no network
action (the `.error` result carries no `NetAction` trace), while any usable
token lets `connect` proceed to its first websocket build. -/
theorem connect_fails_without_token (tokenArg : Option String)
    (st : ClientState) :
    (connectStart tokenArg st = Except.error PyExc.clientException
      ↔ strTruthy tokenArg = false ∧ strTruthy st.token = false)
    ∧ ((strTruthy tokenArg || strTruthy st.token) = true →
        ∃ st' acts, connectStart tokenArg st = Except.ok (st', acts)) := by
  constructor
  · unfold connectStart pyOrStr
    cases h1 : strTruthy tokenArg <;> cases h2 : strTruthy st.token <;>
      simp [h1, h2]
  · intro h
    unfold connectStart pyOrStr
    cases h1 : strTruthy tokenArg <;> cases h2 : strTruthy st.token <;>
      simp_all

/-- Witness for C3 at concrete inputs: with no token anywhere `connect`
fails with `ClientException`; with a token argument it proceeds. -/
theorem connect_fails_without_token_witness :
    connectStart none initialClient = Except.error PyExc.clientException
    ∧ ∃ st' acts, connectStart (some "token") initialClient
        = Except.ok (st', acts) :=
  ⟨(connect_fails_without_token none initialClient).1.mpr ⟨rfl, rfl⟩,
   (connect_fails_without_token (some "token") initialClient).2 (by decide)⟩

/-- C4: through `_run_event` with the (default, non-raising) `on_error`
hook, no handler outcome lets an exception escape the dispatch machinery,
`on_error` runs exactly once for a handler that raises an `Exception` and
never otherwise (an `asyncio.CancelledError` is cancellation, not a
failure, and is passed over), and a whole sequence of events is processed
to the end — one entry per event, never truncated by a raising handler. -/
theorem handler_errors_isolated (hs : List AwaitOutcome) :
    runEventSeq hs
        = hs.map (fun h =>
            match h with
            | AwaitOutcome.raisesExc => 1
            | _ => 0)
    ∧ (∀ h, (runEvent h defaultOnError).2 = none) := by
  constructor
  · induction hs with
    | nil => rfl
    | cons h rest ih => cases h <;> simp [runEventSeq, runEvent, defaultOnError, ih]
  · intro h
    cases h <;> rfl

/-- C5: `Client.dispatch` on an event name with no registered listener
returns having invoked no handler and changed nothing; `dispatch` contains
no `raise`, so no error is possible (it is a total function into
state × scheduled handlers). -/
theorem unknown_event_ignored (st : ClientState) (e : String)
    (h : dictGet st.listeners ("on_" ++ e) = none) :
    dispatch st e = (st, []) := by
  simp [dispatch, h]

/-- Witness for C5: dispatching an unregistered event on a fresh client. -/
theorem unknown_event_ignored_witness :
    dispatch initialClient "banana" = (initialClient, []) :=
  unknown_event_ignored initialClient "banana" rfl

/-- C6: `Client.close` never raises — any failure of the graceful close
frame (including the `NameError` that the unbound `ws` in the source
always produces) is swallowed by the bare `except Exception: pass` — and
on an already-closed client it returns immediately with the state
unchanged. -/
theorem close_is_noop_when_closed (frameResult : Except PyExc Unit)
    (st : ClientState) :
    (∃ st', close frameResult st = Except.ok st')
    ∧ (st.closed = true → close frameResult st = Except.ok st) := by
  constructor
  · unfold close
    by_cases h : st.closed <;> simp [h]
  · intro h
    simp [close, h]

/-- Witness for C6: closing an already-closed client, with the close-frame
attempt failing with `NameError`, is a no-op. -/
theorem close_is_noop_when_closed_witness :
    close (Except.error PyExc.nameError) { initialClient with closed := true }
      = Except.ok { initialClient with closed := true } :=
  (close_is_noop_when_closed (Except.error PyExc.nameError)
    { initialClient with closed := true }).2 rfl

/-- C7: `Client.event` raises `TypeError` (the realization of the spec's
`ConfigurationError`) for a handler that is not a coroutine function, and
for a coroutine function it registers the handler and returns that same
handler. -/
theorem event_requires_coroutine (st : ClientState) (coro : Coro) :
    (coro.isCoroutineFunction = false →
      eventRegister st coro = Except.error PyExc.typeError)
    ∧ (coro.isCoroutineFunction = true →
        eventRegister st coro
          = Except.ok
              ({ st with listeners := dictSet st.listeners coro.name coro.id },
               coro)) := by
  constructor <;> intro h <;> simp [eventRegister, h]

/-- Witness for C7: a non-coroutine handler is rejected with `TypeError`;
a coroutine handler is registered and returned. -/
theorem event_requires_coroutine_witness :
    eventRegister initialClient ⟨"on_ready", false, 0⟩
        = Except.error PyExc.typeError
    ∧ eventRegister initialClient ⟨"on_ready", true, 1⟩
        = Except.ok
            ({ initialClient with listeners := [("on_ready", 1)] },
             ⟨"on_ready", true, 1⟩) :=
  ⟨(event_requires_coroutine initialClient ⟨"on_ready", false, 0⟩).1 rfl,
   (event_requires_coroutine initialClient ⟨"on_ready", true, 1⟩).2 rfl⟩

/-- C8: `get_user` and `get_channel` issue no REST call for any state and
id; `fetch_user` issues exactly the one `restGetUser` call whether or not
the user is cached; `getch_user` issues that call exactly when the cache
lookup comes back empty. -/
theorem cache_accessors_do_no_network_io (st : ClientState) (id : String) :
    (get_user st id).2 = []
    ∧ (get_channel st id).2 = []
    ∧ (fetch_user st id).2 = [NetAction.restGetUser id]
    ∧ (getch_user st id).2
        = (match dictGet st.users id with
           | some _ => []
           | none => [NetAction.restGetUser id]) := by
  refine ⟨rfl, rfl, rfl, ?_⟩
  unfold getch_user get_user httpCacheGetUser fetch_user httpRestGetUser
  cases dictGet st.users id <;> rfl

/-- C9: registering two coroutine handlers in turn under the same event
name leaves the registry mapping that name to the second handler only, and
a subsequent `dispatch` of the event schedules exactly the most recently
registered handler. -/
theorem handler_registration_replaces (st : ClientState) (h1 h2 : Coro)
    (e : String) (hn1 : h1.name = "on_" ++ e) (hn2 : h2.name = "on_" ++ e)
    (hc1 : h1.isCoroutineFunction = true)
    (hc2 : h2.isCoroutineFunction = true) :
    ∃ st1 st2,
      eventRegister st h1 = Except.ok (st1, h1)
      ∧ eventRegister st1 h2 = Except.ok (st2, h2)
      ∧ dictGet st2.listeners ("on_" ++ e) = some h2.id
      ∧ dispatch st2 e = (st2, [h2.id]) := by
  refine ⟨{ st with listeners := dictSet st.listeners h1.name h1.id },
    { st with
      listeners := dictSet (dictSet st.listeners h1.name h1.id) h2.name h2.id },
    by simp [eventRegister, hc1], by simp [eventRegister, hc2], ?_, ?_⟩
  · rw [← hn2]
    exact dictGet_dictSet_self _ _ _
  · have hg : dictGet (dictSet (dictSet st.listeners h1.name h1.id) h2.name
        h2.id) ("on_" ++ e) = some h2.id := by
      rw [← hn2]
      exact dictGet_dictSet_self _ _ _
    simp [dispatch, hg]

/-- Witness for C9: two handlers registered for `message` on a fresh
client; only the second remains and is the one dispatched. -/
theorem handler_registration_replaces_witness :
    ∃ st1 st2,
      eventRegister initialClient ⟨"on_message", true, 1⟩
          = Except.ok (st1, ⟨"on_message", true, 1⟩)
      ∧ eventRegister st1 ⟨"on_message", true, 2⟩
          = Except.ok (st2, ⟨"on_message", true, 2⟩)
      ∧ dictGet st2.listeners ("on_" ++ "message") = some 2
      ∧ dispatch st2 "message" = (st2, [2]) :=
  handler_registration_replaces initialClient ⟨"on_message", true, 1⟩
    ⟨"on_message", true, 2⟩ "message" rfl rfl rfl rfl

/-- C10: whenever the `cache_on_startup` option supplies `False` for
`members`/`channels`, or omits the key (so `dict.get` yields `None`), the
Python expression `cache_on_startup.get(key) or True` evaluates to `True`
for both settings — startup caching cannot be disabled through this
option. -/
theorem cache_on_startup_cannot_be_disabled (opts : List (String × PyVal))
    (hm : dictGet opts "members" = none
          ∨ dictGet opts "members" = some (PyVal.vBool false))
    (hc : dictGet opts "channels" = none
          ∨ dictGet opts "channels" = some (PyVal.vBool false)) :
    cacheOnStartup opts = (PyVal.vBool true, PyVal.vBool true) := by
  rcases hm with hm | hm <;> rcases hc with hc | hc <;>
    simp [cacheOnStartup, pyOrTrue, PyVal.truthy, hm, hc]

/-- Witness for C10: an explicit `{'members': False}` with `channels`
absent still yields both settings `True`. -/
theorem cache_on_startup_cannot_be_disabled_witness :
    cacheOnStartup [("members", PyVal.vBool false)]
      = (PyVal.vBool true, PyVal.vBool true) :=
  cache_on_startup_cannot_be_disabled [("members", PyVal.vBool false)]
    (by decide) (by decide)

end Guilded
